import Mathlib

/-!
Verification development for the libgit2 checkout engine as declared in
src/pygit2/decl/checkout.h.  The header gives the flag constants of
`git_checkout_strategy_t`, the notification kinds, and the documented
decision table of the checkout engine; the engine body itself lives in
libgit2, so the reconciliation pipeline is modelled from the design
specification and checked against it here.
-/

namespace Checkout

/-! ## Flag constants, from `git_checkout_strategy_t` in src/pygit2/decl/checkout.h -/

def GIT_CHECKOUT_NONE : Nat := 0

def GIT_CHECKOUT_SAFE : Nat := 1 <<< 0

def GIT_CHECKOUT_FORCE : Nat := 1 <<< 1

def GIT_CHECKOUT_RECREATE_MISSING : Nat := 1 <<< 2

def GIT_CHECKOUT_ALLOW_CONFLICTS : Nat := 1 <<< 4

def GIT_CHECKOUT_REMOVE_UNTRACKED : Nat := 1 <<< 5

def GIT_CHECKOUT_REMOVE_IGNORED : Nat := 1 <<< 6

def GIT_CHECKOUT_UPDATE_ONLY : Nat := 1 <<< 7

def GIT_CHECKOUT_DONT_UPDATE_INDEX : Nat := 1 <<< 8

def GIT_CHECKOUT_NO_REFRESH : Nat := 1 <<< 9

def GIT_CHECKOUT_SKIP_UNMERGED : Nat := 1 <<< 10

def GIT_CHECKOUT_USE_OURS : Nat := 1 <<< 11

def GIT_CHECKOUT_USE_THEIRS : Nat := 1 <<< 12

def GIT_CHECKOUT_DISABLE_PATHSPEC_MATCH : Nat := 1 <<< 13

def GIT_CHECKOUT_SKIP_LOCKED_DIRECTORIES : Nat := 1 <<< 18

def GIT_CHECKOUT_DONT_OVERWRITE_IGNORED : Nat := 1 <<< 19

def GIT_CHECKOUT_CONFLICT_STYLE_MERGE : Nat := 1 <<< 20

def GIT_CHECKOUT_CONFLICT_STYLE_DIFF3 : Nat := 1 <<< 21

def GIT_CHECKOUT_DONT_REMOVE_EXISTING : Nat := 1 <<< 22

def GIT_CHECKOUT_DONT_WRITE_INDEX : Nat := 1 <<< 23

def GIT_CHECKOUT_DRY_RUN : Nat := 1 <<< 24

def GIT_CHECKOUT_CONFLICT_STYLE_ZDIFF3 : Nat := 1 <<< 25

def GIT_CHECKOUT_UPDATE_SUBMODULES : Nat := 1 <<< 16

def GIT_CHECKOUT_UPDATE_SUBMODULES_IF_CHANGED : Nat := 1 <<< 17

/-- Every named nonzero constant of `git_checkout_strategy_t`, in declaration
order of the header. -/
def strategyConstants : List Nat :=
  [GIT_CHECKOUT_SAFE, GIT_CHECKOUT_FORCE, GIT_CHECKOUT_RECREATE_MISSING,
   GIT_CHECKOUT_ALLOW_CONFLICTS, GIT_CHECKOUT_REMOVE_UNTRACKED,
   GIT_CHECKOUT_REMOVE_IGNORED, GIT_CHECKOUT_UPDATE_ONLY,
   GIT_CHECKOUT_DONT_UPDATE_INDEX, GIT_CHECKOUT_NO_REFRESH,
   GIT_CHECKOUT_SKIP_UNMERGED, GIT_CHECKOUT_USE_OURS, GIT_CHECKOUT_USE_THEIRS,
   GIT_CHECKOUT_DISABLE_PATHSPEC_MATCH, GIT_CHECKOUT_SKIP_LOCKED_DIRECTORIES,
   GIT_CHECKOUT_DONT_OVERWRITE_IGNORED, GIT_CHECKOUT_CONFLICT_STYLE_MERGE,
   GIT_CHECKOUT_CONFLICT_STYLE_DIFF3, GIT_CHECKOUT_DONT_REMOVE_EXISTING,
   GIT_CHECKOUT_DONT_WRITE_INDEX, GIT_CHECKOUT_DRY_RUN,
   GIT_CHECKOUT_CONFLICT_STYLE_ZDIFF3, GIT_CHECKOUT_UPDATE_SUBMODULES,
   GIT_CHECKOUT_UPDATE_SUBMODULES_IF_CHANGED]

/-- Bit test on a raw flag word, the C idiom `(raw & flag) != 0`. -/
def hasFlag (raw flag : Nat) : Bool := raw &&& flag != 0

/-! ## Data model -/

/-- The three update strategies named by the header: NONE (dry run), SAFE,
FORCE. -/
inductive CheckoutMode
  | noneMode
  | safe
  | force
deriving DecidableEq, Repr

/-- Modelled from the spec: the validated, immutable CheckoutStrategy record
produced by the Options and Strategy Resolver (spec section 4.1); the resolver
implementation is not under src, only the flag constants and their
documentation in src/pygit2/decl/checkout.h. -/
structure CheckoutStrategy where
  mode : CheckoutMode
  recreateMissing : Bool
  allowConflicts : Bool
  removeUntracked : Bool
  removeIgnored : Bool
  updateOnly : Bool
  dontUpdateIndex : Bool
  noRefresh : Bool
  skipUnmerged : Bool
  useOurs : Bool
  useTheirs : Bool
  disablePathspecMatch : Bool
  skipLockedDirectories : Bool
  dontOverwriteIgnored : Bool
  conflictStyleMerge : Bool
  conflictStyleDiff3 : Bool
  dontRemoveExisting : Bool
  dontWriteIndex : Bool
  dryRun : Bool
  conflictStyleZdiff3 : Bool
  updateSubmodules : Bool
  updateSubmodulesIfChanged : Bool
deriving DecidableEq, Repr

/-- Modelled from the spec: the Options and Strategy Resolver (spec section
4.1).  FORCE takes precedence over SAFE (header lines 92-93 and 100-101);
neither bit means mode NONE; `dont_update_index` implies `dont_write_index`
(header line 123); every other named flag maps to its own field. -/
def resolveStrategy (raw : Nat) : CheckoutStrategy where
  mode :=
    if hasFlag raw GIT_CHECKOUT_FORCE then CheckoutMode.force
    else if hasFlag raw GIT_CHECKOUT_SAFE then CheckoutMode.safe
    else CheckoutMode.noneMode
  recreateMissing := hasFlag raw GIT_CHECKOUT_RECREATE_MISSING
  allowConflicts := hasFlag raw GIT_CHECKOUT_ALLOW_CONFLICTS
  removeUntracked := hasFlag raw GIT_CHECKOUT_REMOVE_UNTRACKED
  removeIgnored := hasFlag raw GIT_CHECKOUT_REMOVE_IGNORED
  updateOnly := hasFlag raw GIT_CHECKOUT_UPDATE_ONLY
  dontUpdateIndex := hasFlag raw GIT_CHECKOUT_DONT_UPDATE_INDEX
  noRefresh := hasFlag raw GIT_CHECKOUT_NO_REFRESH
  skipUnmerged := hasFlag raw GIT_CHECKOUT_SKIP_UNMERGED
  useOurs := hasFlag raw GIT_CHECKOUT_USE_OURS
  useTheirs := hasFlag raw GIT_CHECKOUT_USE_THEIRS
  disablePathspecMatch := hasFlag raw GIT_CHECKOUT_DISABLE_PATHSPEC_MATCH
  skipLockedDirectories := hasFlag raw GIT_CHECKOUT_SKIP_LOCKED_DIRECTORIES
  dontOverwriteIgnored := hasFlag raw GIT_CHECKOUT_DONT_OVERWRITE_IGNORED
  conflictStyleMerge := hasFlag raw GIT_CHECKOUT_CONFLICT_STYLE_MERGE
  conflictStyleDiff3 := hasFlag raw GIT_CHECKOUT_CONFLICT_STYLE_DIFF3
  dontRemoveExisting := hasFlag raw GIT_CHECKOUT_DONT_REMOVE_EXISTING
  dontWriteIndex :=
    hasFlag raw GIT_CHECKOUT_DONT_WRITE_INDEX ||
    hasFlag raw GIT_CHECKOUT_DONT_UPDATE_INDEX
  dryRun := hasFlag raw GIT_CHECKOUT_DRY_RUN
  conflictStyleZdiff3 := hasFlag raw GIT_CHECKOUT_CONFLICT_STYLE_ZDIFF3
  updateSubmodules := hasFlag raw GIT_CHECKOUT_UPDATE_SUBMODULES
  updateSubmodulesIfChanged := hasFlag raw GIT_CHECKOUT_UPDATE_SUBMODULES_IF_CHANGED

/-- Index slot for one path: absent, a normal stage-0 entry, or an unmerged
entry holding stage 2 (ours) and stage 3 (theirs) versions with no stage 0. -/
inductive IndexState
  | absent
  | staged (content : Nat)
  | unmerged (stage2 : Nat) (stage3 : Nat)
deriving DecidableEq, Repr

/-- Modelled from the spec: a PathEntry of the Diff Table (spec section 3);
presence and content identifier in each of baseline, target, workdir, index. -/
structure PathEntry where
  path : String
  baseline : Option Nat
  target : Option Nat
  workdir : Option Nat
  index : IndexState
deriving DecidableEq, Repr

/-- The per-path action of the plan (spec section 3): none, create, update,
delete, or conflict; create and update carry the content to write. -/
inductive Action
  | none
  | create (content : Nat)
  | update (content : Nat)
  | delete
  | conflict
deriving DecidableEq, Repr

def isApplyAction : Action → Bool
  | Action.create _ => true
  | Action.update _ => true
  | Action.delete => true
  | _ => false

def isUpdateAction : Action → Bool
  | Action.update _ => true
  | _ => false

/-- The create/update/delete action that makes the workdir match the target,
per the target vs baseline diff (header decision table, second column). -/
def diffAction (b t : Option Nat) : Action :=
  match b, t with
  | Option.none, Option.some c => Action.create c
  | Option.some _, Option.none => Action.delete
  | Option.some x, Option.some y => if y = x then Action.none else Action.update y
  | Option.none, Option.none => Action.none

/-- Checking out one explicit version (stage 2 or stage 3): create when the
workdir slot is empty, update otherwise. -/
def stageAction (e : PathEntry) (v : Nat) : Action :=
  match e.workdir with
  | Option.none => Action.create v
  | Option.some _ => Action.update v

/-- Modelled from the spec: the Conflict Classifier decision table (spec
section 4.3 and the table at header lines 24-34); the classifier
implementation is not under src.  Unmerged index entries are conflicts unless
`skip_unmerged` / `use_ours` / `use_theirs` (header lines 69-72); otherwise
the target/baseline/workdir table applies, with FORCE resolving workdir
divergence in favour of the target. -/
def classifyEntry (s : CheckoutStrategy) (e : PathEntry) : Action :=
  match e.index with
  | IndexState.unmerged o t =>
    if s.skipUnmerged then Action.none
    else if s.useOurs then stageAction e o
    else if s.useTheirs then stageAction e t
    else Action.conflict
  | _ =>
    if e.target = e.baseline then
      if e.workdir = Option.none ∧ e.baseline ≠ Option.none ∧ s.recreateMissing = true then
        match e.target with
        | Option.some c => Action.create c
        | Option.none => Action.none
      else Action.none
    else if e.workdir = e.baseline then diffAction e.baseline e.target
    else if e.workdir = Option.none then
      match e.target with
      | Option.some c => Action.create c
      | Option.none => Action.none
    else if s.mode = CheckoutMode.force then diffAction e.baseline e.target
    else Action.conflict

/-- Notification kinds, from `git_checkout_notify_t` in the header. -/
inductive NotifyKind
  | conflict
  | dirty
  | updated
  | untracked
  | ignored
deriving DecidableEq, Repr

/-- A NotificationEvent: kind plus path (spec section 3). -/
structure NotificationEvent where
  kind : NotifyKind
  path : String
deriving DecidableEq, Repr

/-- Modelled from the spec: the notifications the classifier fires for one
PathEntry (spec sections 4.3 and 4.4): conflict for conflicting entries,
updated for planned create/update/delete, dirty when the workdir diverged
but the target asks for no change, untracked for workdir-only files. -/
def notifyFor (s : CheckoutStrategy) (e : PathEntry) : List NotificationEvent :=
  if classifyEntry s e = Action.conflict then
    [⟨NotifyKind.conflict, e.path⟩]
  else if isApplyAction (classifyEntry s e) = true then
    [⟨NotifyKind.updated, e.path⟩]
  else if e.target = e.baseline ∧ e.workdir ≠ e.baseline then
    [⟨NotifyKind.dirty, e.path⟩]
  else if e.baseline = Option.none ∧ e.target = Option.none ∧
      e.index = IndexState.absent ∧ e.workdir ≠ Option.none then
    [⟨NotifyKind.untracked, e.path⟩]
  else []

/-- All notifications of one classification pass, in path-table order. -/
def notificationsOf (s : CheckoutStrategy) (entries : List PathEntry) :
    List NotificationEvent :=
  (entries.map (notifyFor s)).flatten

/-- Modelled from the spec: the Notification Dispatcher (spec section 4.4)
delivers events in order to the callback; a true return cancels the owning
phase immediately.  Returns the delivered prefix and whether a cancellation
occurred. -/
def deliverNotifications (cb : NotificationEvent → Bool) :
    List NotificationEvent → List NotificationEvent × Bool
  | [] => ([], false)
  | n :: rest =>
    if cb n then ([n], true)
    else
      let r := deliverNotifications cb rest
      (n :: r.1, r.2)

/-- Modelled from the spec: the error kinds of section 7 that can arise
before application begins. -/
inductive CheckoutError
  | validation
  | structural
  | conflictError (paths : List String)
  | cancelled
deriving DecidableEq, Repr

/-- Working directory and index contents as path-to-content maps. -/
structure RepoState where
  workdir : List (String × Nat)
  index : List (String × Nat)
deriving DecidableEq, Repr

/-- A PathEntry violating the table invariant that not all four sources are
absent (spec section 3); the Diff Table Builder fails structurally on it. -/
def malformedEntry (e : PathEntry) : Bool :=
  e.baseline == Option.none && e.target == Option.none &&
  e.workdir == Option.none && e.index == IndexState.absent

/-- One filesystem application step: create/update writes the content,
delete removes the path, anything else is a no-op. -/
def applyAction (w : List (String × Nat)) (pa : String × Action) :
    List (String × Nat) :=
  match pa.2 with
  | Action.create c => (pa.1, c) :: w.filter (fun q => q.1 != pa.1)
  | Action.update c => (pa.1, c) :: w.filter (fun q => q.1 != pa.1)
  | Action.delete => w.filter (fun q => q.1 != pa.1)
  | _ => w

/-- Modelled from the spec: the Plan surviving classification (spec section
3): the applyable actions, restricted to updates alone when `update_only` is
set (header lines 59-61 and 118-119). -/
def planOf (s : CheckoutStrategy) (entries : List PathEntry) :
    List (String × Action) :=
  let applyable := (entries.map (fun e => (e.path, classifyEntry s e))).filter
    (fun pa => isApplyAction pa.2)
  if s.updateOnly then applyable.filter (fun pa => isUpdateAction pa.2)
  else applyable

/-- The paths of every entry the classifier marks as a conflict. -/
def conflictPaths (s : CheckoutStrategy) (entries : List PathEntry) :
    List String :=
  (entries.filter (fun e => classifyEntry s e == Action.conflict)).map
    (fun e => e.path)

/-- Everything one checkout invocation produces: the result, the delivered
notifications, the paths for which the progress callback fired, the number of
perfdata callback invocations, the applied actions, the final workdir and
index, and whether the index was written to persistent storage. -/
structure CheckoutOutput where
  result : Except CheckoutError Unit
  notifications : List NotificationEvent
  progress : List String
  perfdataCalls : Nat
  applied : List (String × Action)
  finalWorkdir : List (String × Nat)
  finalIndex : List (String × Nat)
  indexWritten : Bool
deriving Repr

/-- Modelled from the spec: classification, notification, conflict abort,
dry-run cutoff, application and index synchronisation for an already
resolved strategy (spec sections 4.3 to 4.6).  Notification delivery may
cancel; under SAFE without allow-conflicts a nonempty conflict set aborts
the whole invocation carrying every conflicting path; dry-run or mode NONE
stops after notifications; otherwise the plan is applied with progress and
perfdata callbacks and the index is synchronised and written unless
suppressed. -/
def checkoutWith (s : CheckoutStrategy) (entries : List PathEntry)
    (cb : NotificationEvent → Bool) (st : RepoState) : CheckoutOutput :=
  let delivered := deliverNotifications cb (notificationsOf s entries)
  if delivered.2 = true then
    ⟨Except.error CheckoutError.cancelled, delivered.1, [], 0, [],
      st.workdir, st.index, false⟩
  else if s.mode = CheckoutMode.safe ∧ s.allowConflicts = false ∧
      conflictPaths s entries ≠ [] then
    ⟨Except.error (CheckoutError.conflictError (conflictPaths s entries)),
      delivered.1, [], 0, [], st.workdir, st.index, false⟩
  else if s.dryRun = true ∨ s.mode = CheckoutMode.noneMode then
    ⟨Except.ok (), delivered.1, [], 0, [], st.workdir, st.index, false⟩
  else
    let plan := planOf s entries
    ⟨Except.ok (), delivered.1, plan.map (fun pa => pa.1), 1, plan,
      plan.foldl applyAction st.workdir,
      if s.dontUpdateIndex then st.index else plan.foldl applyAction st.index,
      !s.dontWriteIndex⟩

/-- Modelled from the spec: one whole checkout invocation (spec sections 4.1
to 4.6), whose implementation is not under src.  Resolver validation (the
options version must be 1), structural check of the diff table, then the
resolved-strategy pipeline. -/
def checkout (version raw : Nat) (entries : List PathEntry)
    (cb : NotificationEvent → Bool) (st : RepoState) : CheckoutOutput :=
  if version ≠ 1 then
    ⟨Except.error CheckoutError.validation, [], [], 0, [], st.workdir, st.index, false⟩
  else if entries.any malformedEntry then
    ⟨Except.error CheckoutError.structural, [], [], 0, [], st.workdir, st.index, false⟩
  else checkoutWith (resolveStrategy raw) entries cb st

/-! ## Derived predicates and sample inputs -/

/-- The index slot of a PathEntry agrees with its baseline slot: both absent,
or a normal stage-0 entry with the baseline content. -/
def indexMatchesBaseline (e : PathEntry) : Bool :=
  match e.index, e.baseline with
  | IndexState.absent, Option.none => true
  | IndexState.staged c, Option.some b => c == b
  | _, _ => false

/-- An action materialises the target version `t`: create or update with the
target content when the target is present, delete (or nothing left to do)
when the target is absent. -/
def favorsTarget (t : Option Nat) (a : Action) : Prop :=
  match t with
  | Option.some c => a = Action.create c ∨ a = Action.update c
  | Option.none => a = Action.delete ∨ a = Action.none

def isUnmergedState : IndexState → Bool
  | IndexState.unmerged _ _ => true
  | _ => false

def stage2Of : IndexState → Nat
  | IndexState.unmerged o _ => o
  | _ => 0

def stage3Of : IndexState → Nat
  | IndexState.unmerged _ t => t
  | _ => 0

/-- A callback that never cancels. -/
def cbNever : NotificationEvent → Bool := fun _ => false

/-- A callback that cancels on the first notification. -/
def cbAlways : NotificationEvent → Bool := fun _ => true

/-- Path with workdir diverged from baseline while the target also changed:
the SAFE-conflict / FORCE-overwrite case. -/
def divergedEntry : PathEntry := ⟨"c", some 1, some 2, some 3, IndexState.staged 1⟩

def stateC : RepoState := ⟨[("c", 3)], [("c", 1)]⟩

/-- Path where target, workdir and index all equal the baseline. -/
def cleanEntry : PathEntry := ⟨"a", some 1, some 1, some 1, IndexState.staged 1⟩

def stateA : RepoState := ⟨[("a", 1)], [("a", 1)]⟩

/-- Path absent everywhere except the target: a planned create. -/
def newEntry : PathEntry := ⟨"new", none, some 5, none, IndexState.absent⟩

/-- Path whose content changed between baseline and target, workdir clean. -/
def modEntry : PathEntry := ⟨"mod", some 1, some 2, some 1, IndexState.staged 1⟩

def stateMod : RepoState := ⟨[("mod", 1)], [("mod", 1)]⟩

/-- Path with an unmerged index entry: stage 2 is 4, stage 3 is 9. -/
def unmergedEntry : PathEntry := ⟨"u", some 1, some 2, some 7, IndexState.unmerged 4 9⟩

/-- The modifier constants: every named nonzero strategy constant other than
SAFE and FORCE. -/
def modifierConstants : List Nat :=
  strategyConstants.filter
    (fun c => c != GIT_CHECKOUT_SAFE && c != GIT_CHECKOUT_FORCE)

/-! ## Theorems -/

/-- Claim C10: every named constant of git_checkout_strategy_t other than
GIT_CHECKOUT_NONE (which is 0) is a power of two below 2 to the 26, no two
constants coincide (so no two share a bit position), and within bit positions
0 to 25 exactly the positions 3, 14 and 15 carry no constant. -/
theorem strategy_flags_distinct_powers :
    GIT_CHECKOUT_NONE = 0 ∧
    (∀ c ∈ strategyConstants, ∃ k, k < 26 ∧ c = 2 ^ k) ∧
    strategyConstants.Nodup ∧
    (∀ k, k < 26 → (2 ^ k ∈ strategyConstants ↔ ¬(k = 3 ∨ k = 14 ∨ k = 15))) := by
  decide

/-- Claim C8: whenever the raw flag word carries GIT_CHECKOUT_DONT_UPDATE_INDEX,
the resolved strategy has both dontUpdateIndex and dontWriteIndex set, so the
index is never written when index updating is suppressed. -/
theorem dont_update_index_forces_dont_write_index (raw : Nat)
    (h : hasFlag raw GIT_CHECKOUT_DONT_UPDATE_INDEX = true) :
    (resolveStrategy raw).dontUpdateIndex = true ∧
    (resolveStrategy raw).dontWriteIndex = true := by
  constructor
  · exact h
  · show (hasFlag raw GIT_CHECKOUT_DONT_WRITE_INDEX ||
      hasFlag raw GIT_CHECKOUT_DONT_UPDATE_INDEX) = true
    simp [h]

/-- Witness for claim C8 at the raw word 256 = 1 shifted left by 8. -/
theorem dont_update_index_forces_dont_write_index_witness :
    hasFlag 256 GIT_CHECKOUT_DONT_UPDATE_INDEX = true ∧
    (resolveStrategy 256).dontUpdateIndex = true ∧
    (resolveStrategy 256).dontWriteIndex = true :=
  ⟨by decide, dont_update_index_forces_dont_write_index 256 (by decide)⟩

/-- Claim C7: a raw flag word with both SAFE and FORCE set resolves to exactly
the strategy of the word with only FORCE set (and the same remaining flags):
FORCE silently wins and no validation error arises from the combination. -/
theorem force_wins_over_safe (a b : Nat)
    (haS : hasFlag a GIT_CHECKOUT_SAFE = true)
    (haF : hasFlag a GIT_CHECKOUT_FORCE = true)
    (hbS : hasFlag b GIT_CHECKOUT_SAFE = false)
    (hbF : hasFlag b GIT_CHECKOUT_FORCE = true)
    (hrest : ∀ c ∈ modifierConstants, hasFlag a c = hasFlag b c) :
    resolveStrategy a = resolveStrategy b := by
  have h01 := hrest GIT_CHECKOUT_RECREATE_MISSING (by decide)
  have h02 := hrest GIT_CHECKOUT_ALLOW_CONFLICTS (by decide)
  have h03 := hrest GIT_CHECKOUT_REMOVE_UNTRACKED (by decide)
  have h04 := hrest GIT_CHECKOUT_REMOVE_IGNORED (by decide)
  have h05 := hrest GIT_CHECKOUT_UPDATE_ONLY (by decide)
  have h06 := hrest GIT_CHECKOUT_DONT_UPDATE_INDEX (by decide)
  have h07 := hrest GIT_CHECKOUT_NO_REFRESH (by decide)
  have h08 := hrest GIT_CHECKOUT_SKIP_UNMERGED (by decide)
  have h09 := hrest GIT_CHECKOUT_USE_OURS (by decide)
  have h10 := hrest GIT_CHECKOUT_USE_THEIRS (by decide)
  have h11 := hrest GIT_CHECKOUT_DISABLE_PATHSPEC_MATCH (by decide)
  have h12 := hrest GIT_CHECKOUT_SKIP_LOCKED_DIRECTORIES (by decide)
  have h13 := hrest GIT_CHECKOUT_DONT_OVERWRITE_IGNORED (by decide)
  have h14 := hrest GIT_CHECKOUT_CONFLICT_STYLE_MERGE (by decide)
  have h15 := hrest GIT_CHECKOUT_CONFLICT_STYLE_DIFF3 (by decide)
  have h16 := hrest GIT_CHECKOUT_DONT_REMOVE_EXISTING (by decide)
  have h17 := hrest GIT_CHECKOUT_DONT_WRITE_INDEX (by decide)
  have h18 := hrest GIT_CHECKOUT_DRY_RUN (by decide)
  have h19 := hrest GIT_CHECKOUT_CONFLICT_STYLE_ZDIFF3 (by decide)
  have h20 := hrest GIT_CHECKOUT_UPDATE_SUBMODULES (by decide)
  have h21 := hrest GIT_CHECKOUT_UPDATE_SUBMODULES_IF_CHANGED (by decide)
  simp [resolveStrategy, haF, hbF, h01, h02, h03, h04, h05, h06, h07, h08,
    h09, h10, h11, h12, h13, h14, h15, h16, h17, h18, h19, h20, h21]

/-- Witness for claim C7: raw word 3 (SAFE and FORCE) resolves like raw word 2
(FORCE alone). -/
theorem force_wins_over_safe_witness :
    hasFlag 3 GIT_CHECKOUT_SAFE = true ∧ hasFlag 3 GIT_CHECKOUT_FORCE = true ∧
    hasFlag 2 GIT_CHECKOUT_SAFE = false ∧ hasFlag 2 GIT_CHECKOUT_FORCE = true ∧
    resolveStrategy 3 = resolveStrategy 2 :=
  ⟨by decide, by decide, by decide, by decide,
   force_wins_over_safe 3 2 (by decide) (by decide) (by decide) (by decide)
     (by decide)⟩

/-- diffAction never yields a conflict. -/
theorem diffAction_ne_conflict (b t : Option Nat) :
    diffAction b t ≠ Action.conflict := by
  rcases b with _ | x <;> rcases t with _ | y <;> simp [diffAction]
  split <;> simp

/-- When the target differs from the baseline, diffAction materialises the
target version. -/
theorem favorsTarget_diffAction (b t : Option Nat) (h : t ≠ b) :
    favorsTarget t (diffAction b t) := by
  rcases b with _ | x <;> rcases t with _ | y <;>
    simp_all [diffAction, favorsTarget]

/-- Claim C6: an unmerged index entry (stage 2 and 3 present, no stage 0) is
classified a conflict, except that skip_unmerged skips it with no action,
use_ours checks out the stage-2 version and use_theirs the stage-3 version,
each as a create or update from that version. -/
theorem unmerged_entry_classification (s : CheckoutStrategy) (e : PathEntry)
    (o t : Nat) (hu : e.index = IndexState.unmerged o t) :
    (s.skipUnmerged = false → s.useOurs = false → s.useTheirs = false →
      classifyEntry s e = Action.conflict) ∧
    (s.skipUnmerged = true → classifyEntry s e = Action.none) ∧
    (s.skipUnmerged = false → s.useOurs = true →
      classifyEntry s e = stageAction e o ∧
      (classifyEntry s e = Action.create o ∨ classifyEntry s e = Action.update o)) ∧
    (s.skipUnmerged = false → s.useOurs = false → s.useTheirs = true →
      classifyEntry s e = stageAction e t ∧
      (classifyEntry s e = Action.create t ∨ classifyEntry s e = Action.update t)) := by
  rcases e with ⟨p, b, tg, w, idx⟩
  simp only at hu
  subst hu
  refine ⟨?_, ?_, ?_, ?_⟩
  · intro h1 h2 h3
    simp [classifyEntry, h1, h2, h3]
  · intro h1
    simp [classifyEntry, h1]
  · intro h1 h2
    rcases w with _ | wv <;> simp [classifyEntry, stageAction, h1, h2]
  · intro h1 h2 h3
    rcases w with _ | wv <;> simp [classifyEntry, stageAction, h1, h2, h3]

/-- Witness for claim C6: with SKIP_UNMERGED (raw 1024) the unmerged sample
entry is skipped with no action. -/
theorem unmerged_entry_classification_witness :
    unmergedEntry.index = IndexState.unmerged 4 9 ∧
    (resolveStrategy 1024).skipUnmerged = true ∧
    classifyEntry (resolveStrategy 1024) unmergedEntry = Action.none :=
  ⟨rfl, by decide,
   (unmerged_entry_classification (resolveStrategy 1024) unmergedEntry 4 9
      rfl).2.1 (by decide)⟩

/-- Claim C3: under FORCE a non-unmerged entry is never classified a conflict;
in particular when both workdir and target diverge from the baseline the
entry is resolved in favour of the target version; and for unmerged index
entries skip_unmerged, use_ours and use_theirs are still honoured. -/
theorem force_resolves_to_target (s : CheckoutStrategy) (e : PathEntry)
    (hf : s.mode = CheckoutMode.force) :
    (isUnmergedState e.index = false → classifyEntry s e ≠ Action.conflict) ∧
    (isUnmergedState e.index = false → e.workdir ≠ e.baseline →
      e.target ≠ e.baseline → favorsTarget e.target (classifyEntry s e)) ∧
    (isUnmergedState e.index = true → s.skipUnmerged = true →
      classifyEntry s e = Action.none) ∧
    (isUnmergedState e.index = true → s.skipUnmerged = false → s.useOurs = true →
      classifyEntry s e = stageAction e (stage2Of e.index)) ∧
    (isUnmergedState e.index = true → s.skipUnmerged = false → s.useOurs = false →
      s.useTheirs = true → classifyEntry s e = stageAction e (stage3Of e.index)) := by
  rcases e with ⟨p, b, tg, w, idx⟩
  cases idx with
  | unmerged o3 t3 =>
    refine ⟨by simp [isUnmergedState], by simp [isUnmergedState], ?_, ?_, ?_⟩
    · intro _ h1
      simp [classifyEntry, h1]
    · intro _ h1 h2
      simp [classifyEntry, stage2Of, h1, h2]
    · intro _ h1 h2 h3
      simp [classifyEntry, stage3Of, h1, h2, h3]
  | absent =>
    refine ⟨fun _ => ?_, fun _ hw ht => ?_, by simp [isUnmergedState],
      by simp [isUnmergedState], by simp [isUnmergedState]⟩
    · simp only [classifyEntry]
      split_ifs with h1 h2 h3 h4
      · rcases tg with _ | c <;> simp
      · simp
      · exact diffAction_ne_conflict b tg
      · rcases tg with _ | c <;> simp
      · exact diffAction_ne_conflict b tg
    · simp only at hw ht ⊢
      simp only [classifyEntry]
      rw [if_neg ht, if_neg hw]
      by_cases h3 : w = Option.none
      · rw [if_pos h3]
        rcases tg with _ | c <;> simp [favorsTarget]
      · rw [if_neg h3, if_pos hf]
        exact favorsTarget_diffAction b tg ht
  | staged c0 =>
    refine ⟨fun _ => ?_, fun _ hw ht => ?_, by simp [isUnmergedState],
      by simp [isUnmergedState], by simp [isUnmergedState]⟩
    · simp only [classifyEntry]
      split_ifs with h1 h2 h3 h4
      · rcases tg with _ | c <;> simp
      · simp
      · exact diffAction_ne_conflict b tg
      · rcases tg with _ | c <;> simp
      · exact diffAction_ne_conflict b tg
    · simp only at hw ht ⊢
      simp only [classifyEntry]
      rw [if_neg ht, if_neg hw]
      by_cases h3 : w = Option.none
      · rw [if_pos h3]
        rcases tg with _ | c <;> simp [favorsTarget]
      · rw [if_neg h3, if_pos hf]
        exact favorsTarget_diffAction b tg ht

/-- Witness for claim C3 at raw word 2 (FORCE) on the diverged sample entry:
no conflict is raised and the classification materialises the target. -/
theorem force_resolves_to_target_witness :
    (resolveStrategy 2).mode = CheckoutMode.force ∧
    classifyEntry (resolveStrategy 2) divergedEntry ≠ Action.conflict ∧
    favorsTarget divergedEntry.target (classifyEntry (resolveStrategy 2) divergedEntry) :=
  ⟨by decide,
   (force_resolves_to_target (resolveStrategy 2) divergedEntry (by decide)).1
     (by decide),
   (force_resolves_to_target (resolveStrategy 2) divergedEntry
      (by decide)).2.1 (by decide) (by decide) (by decide)⟩

/-- A callback that never cancels delivers every notification and reports no
cancellation. -/
theorem deliver_no_cancel (cb : NotificationEvent → Bool)
    (l : List NotificationEvent) (h : ∀ n, cb n = false) :
    deliverNotifications cb l = (l, false) := by
  induction l with
  | nil => rfl
  | cons n rest ih => simp [deliverNotifications, h n, ih]

/-- An entry whose target, workdir and index all agree with the baseline is
classified as no action. -/
theorem classify_of_all_eq_baseline (s : CheckoutStrategy) (e : PathEntry)
    (h1 : e.target = e.baseline) (h2 : e.workdir = e.baseline)
    (h3 : indexMatchesBaseline e = true) :
    classifyEntry s e = Action.none := by
  rcases e with ⟨p, b, tg, w, idx⟩
  simp only at h1 h2 h3
  cases idx with
  | unmerged o3 t3 => simp [indexMatchesBaseline] at h3
  | absent => rcases b with _ | x <;> simp_all [classifyEntry]
  | staged c0 => rcases b with _ | x <;> simp_all [classifyEntry]

/-- An entry whose target, workdir and index all agree with the baseline
fires no notification. -/
theorem notifyFor_of_all_eq_baseline (s : CheckoutStrategy) (e : PathEntry)
    (h1 : e.target = e.baseline) (h2 : e.workdir = e.baseline)
    (h3 : indexMatchesBaseline e = true) :
    notifyFor s e = [] := by
  have hc := classify_of_all_eq_baseline s e h1 h2 h3
  rcases e with ⟨p, b, tg, w, idx⟩
  simp only at h1 h2 h3 hc
  rcases b with _ | x <;> cases idx <;>
    simp_all [notifyFor, isApplyAction, indexMatchesBaseline]

/-- Entries that fire no notifications produce an empty notification list. -/
theorem notificationsOf_eq_nil (s : CheckoutStrategy) (entries : List PathEntry)
    (h : ∀ e ∈ entries, notifyFor s e = []) :
    notificationsOf s entries = [] := by
  induction entries with
  | nil => rfl
  | cons a l ih =>
    have ha := h a (List.mem_cons_self a l)
    have hl := ih (fun e he => h e (List.mem_cons_of_mem a he))
    simp only [notificationsOf, List.map_cons, List.flatten_cons, ha,
      List.nil_append]
    simpa [notificationsOf] using hl

/-- Entries all classified as no action yield an empty plan. -/
theorem planOf_eq_nil (s : CheckoutStrategy) (entries : List PathEntry)
    (h : ∀ e ∈ entries, classifyEntry s e = Action.none) :
    planOf s entries = [] := by
  have hfil : (entries.map (fun e => (e.path, classifyEntry s e))).filter
      (fun pa => isApplyAction pa.2) = [] := by
    rw [List.filter_eq_nil_iff]
    intro pa hpa
    rcases List.mem_map.mp hpa with ⟨e, he, rfl⟩
    simp [h e he, isApplyAction]
  simp [planOf, hfil]

/-- Entries all classified as no action yield no conflict paths. -/
theorem conflictPaths_eq_nil (s : CheckoutStrategy) (entries : List PathEntry)
    (h : ∀ e ∈ entries, classifyEntry s e = Action.none) :
    conflictPaths s entries = [] := by
  have hfil : entries.filter (fun e => classifyEntry s e == Action.conflict) = [] := by
    rw [List.filter_eq_nil_iff]
    intro e he
    simp [h e he]
  simp [conflictPaths, hfil]

/-- Claim C1: every PathEntry whose target, workdir and index versions all
equal the baseline version is classified as action none, so a checkout of a
list of such entries applies nothing and leaves the working directory and the
index unchanged: running checkout a second time against the same target with
no intervening change performs zero filesystem writes. -/
theorem checkout_idempotent_noop (version raw : Nat) (entries : List PathEntry)
    (cb : NotificationEvent → Bool) (st : RepoState)
    (hv : version = 1)
    (hall : ∀ e ∈ entries, e.target = e.baseline ∧ e.workdir = e.baseline ∧
      indexMatchesBaseline e = true) :
    (∀ e ∈ entries, classifyEntry (resolveStrategy raw) e = Action.none) ∧
    (checkout version raw entries cb st).applied = [] ∧
    (checkout version raw entries cb st).progress = [] ∧
    (checkout version raw entries cb st).finalWorkdir = st.workdir ∧
    (checkout version raw entries cb st).finalIndex = st.index := by
  subst hv
  have hcls : ∀ e ∈ entries, classifyEntry (resolveStrategy raw) e = Action.none :=
    fun e he =>
      classify_of_all_eq_baseline _ e (hall e he).1 (hall e he).2.1 (hall e he).2.2
  have hnot : notificationsOf (resolveStrategy raw) entries = [] :=
    notificationsOf_eq_nil _ _ (fun e he =>
      notifyFor_of_all_eq_baseline _ e (hall e he).1 (hall e he).2.1 (hall e he).2.2)
  have hplan := planOf_eq_nil (resolveStrategy raw) entries hcls
  have hconf := conflictPaths_eq_nil (resolveStrategy raw) entries hcls
  refine ⟨hcls, ?_⟩
  simp only [checkout, checkoutWith, hnot, hplan, hconf]
  split_ifs <;> simp_all [deliverNotifications]

/-- Witness for claim C1 on a clean sample entry under SAFE: no action, no
application, workdir and index unchanged. -/
theorem checkout_idempotent_noop_witness :
    (∀ e ∈ [cleanEntry], e.target = e.baseline ∧ e.workdir = e.baseline ∧
      indexMatchesBaseline e = true) ∧
    ((∀ e ∈ [cleanEntry], classifyEntry (resolveStrategy 1) e = Action.none) ∧
     (checkout 1 1 [cleanEntry] cbNever stateA).applied = [] ∧
     (checkout 1 1 [cleanEntry] cbNever stateA).progress = [] ∧
     (checkout 1 1 [cleanEntry] cbNever stateA).finalWorkdir = stateA.workdir ∧
     (checkout 1 1 [cleanEntry] cbNever stateA).finalIndex = stateA.index) :=
  ⟨by decide, checkout_idempotent_noop 1 1 [cleanEntry] cbNever stateA rfl (by decide)⟩

/-- Claim C2: under SAFE without allow-conflicts, one conflicting PathEntry
aborts the whole invocation before any application: the result is a conflict
error carrying the path of every entry classified conflict (not only the
first), nothing is applied, no progress or perfdata callback fires, and the
working directory and index are unchanged. -/
theorem safe_conflict_all_or_nothing (version raw : Nat)
    (entries : List PathEntry) (cb : NotificationEvent → Bool) (st : RepoState)
    (hv : version = 1)
    (hm : entries.any malformedEntry = false)
    (hmode : (resolveStrategy raw).mode = CheckoutMode.safe)
    (hac : (resolveStrategy raw).allowConflicts = false)
    (hcb : ∀ n, cb n = false)
    (hconfl : conflictPaths (resolveStrategy raw) entries ≠ []) :
    (checkout version raw entries cb st).result =
      Except.error (CheckoutError.conflictError
        (conflictPaths (resolveStrategy raw) entries)) ∧
    (∀ e ∈ entries, classifyEntry (resolveStrategy raw) e = Action.conflict →
      e.path ∈ conflictPaths (resolveStrategy raw) entries) ∧
    (checkout version raw entries cb st).applied = [] ∧
    (checkout version raw entries cb st).progress = [] ∧
    (checkout version raw entries cb st).perfdataCalls = 0 ∧
    (checkout version raw entries cb st).finalWorkdir = st.workdir ∧
    (checkout version raw entries cb st).finalIndex = st.index := by
  subst hv
  have hdel := deliver_no_cancel cb (notificationsOf (resolveStrategy raw) entries) hcb
  have hmem : ∀ e ∈ entries, classifyEntry (resolveStrategy raw) e = Action.conflict →
      e.path ∈ conflictPaths (resolveStrategy raw) entries := by
    intro e he hc
    simp only [conflictPaths, List.mem_map]
    exact ⟨e, List.mem_filter.mpr ⟨he, by simp [hc]⟩, rfl⟩
  refine ⟨?_, hmem, ?_⟩
  · simp [checkout, checkoutWith, hm, hdel, hmode, hac, hconfl]
  · simp [checkout, checkoutWith, hm, hdel, hmode, hac, hconfl]

/-- Witness for claim C2: the diverged sample entry under SAFE (raw 1) aborts
with the full conflict list and leaves the state untouched. -/
theorem safe_conflict_all_or_nothing_witness :
    conflictPaths (resolveStrategy 1) [divergedEntry] = ["c"] ∧
    ((checkout 1 1 [divergedEntry] cbNever stateC).result =
      Except.error (CheckoutError.conflictError
        (conflictPaths (resolveStrategy 1) [divergedEntry])) ∧
     (∀ e ∈ [divergedEntry], classifyEntry (resolveStrategy 1) e = Action.conflict →
       e.path ∈ conflictPaths (resolveStrategy 1) [divergedEntry]) ∧
     (checkout 1 1 [divergedEntry] cbNever stateC).applied = [] ∧
     (checkout 1 1 [divergedEntry] cbNever stateC).progress = [] ∧
     (checkout 1 1 [divergedEntry] cbNever stateC).perfdataCalls = 0 ∧
     (checkout 1 1 [divergedEntry] cbNever stateC).finalWorkdir = stateC.workdir ∧
     (checkout 1 1 [divergedEntry] cbNever stateC).finalIndex = stateC.index) :=
  ⟨by decide,
   safe_conflict_all_or_nothing 1 1 [divergedEntry] cbNever stateC rfl
     (by decide) (by decide) (by decide) (fun n => rfl) (by decide)⟩

/-- Claim C4: with dry_run set (or strategy NONE), for every well-formed
input the checkout delivers its notifications but fires no progress or
perfdata callback, applies nothing, leaves the working directory and index
unchanged and does not write the index — even when FORCE was requested
alongside DRY_RUN and a genuine divergence exists. -/
theorem dry_run_no_side_effects (version raw : Nat) (entries : List PathEntry)
    (cb : NotificationEvent → Bool) (st : RepoState)
    (hv : version = 1)
    (hm : entries.any malformedEntry = false)
    (hdr : (resolveStrategy raw).dryRun = true ∨
      (resolveStrategy raw).mode = CheckoutMode.noneMode) :
    (checkout version raw entries cb st).notifications =
      (deliverNotifications cb (notificationsOf (resolveStrategy raw) entries)).1 ∧
    (checkout version raw entries cb st).progress = [] ∧
    (checkout version raw entries cb st).perfdataCalls = 0 ∧
    (checkout version raw entries cb st).applied = [] ∧
    (checkout version raw entries cb st).finalWorkdir = st.workdir ∧
    (checkout version raw entries cb st).finalIndex = st.index ∧
    (checkout version raw entries cb st).indexWritten = false := by
  subst hv
  simp only [checkout, checkoutWith, hm]
  split_ifs with h1 h2 h3 h4 <;> simp_all

/-- Witness for claim C4 at raw word 16777218 (FORCE plus DRY_RUN) on the
diverged sample entry: the updated notification fires, nothing is applied,
state is unchanged. -/
theorem dry_run_no_side_effects_witness :
    (resolveStrategy 16777218).dryRun = true ∧
    (checkout 1 16777218 [divergedEntry] cbNever stateC).notifications =
      (deliverNotifications cbNever
        (notificationsOf (resolveStrategy 16777218) [divergedEntry])).1 ∧
    (checkout 1 16777218 [divergedEntry] cbNever stateC).progress = [] ∧
    (checkout 1 16777218 [divergedEntry] cbNever stateC).perfdataCalls = 0 ∧
    (checkout 1 16777218 [divergedEntry] cbNever stateC).applied = [] ∧
    (checkout 1 16777218 [divergedEntry] cbNever stateC).finalWorkdir = stateC.workdir ∧
    (checkout 1 16777218 [divergedEntry] cbNever stateC).finalIndex = stateC.index ∧
    (checkout 1 16777218 [divergedEntry] cbNever stateC).indexWritten = false :=
  ⟨by decide,
   dry_run_no_side_effects 1 16777218 [divergedEntry] cbNever stateC rfl
     (by decide) (Or.inl (by decide))⟩

/-- Claim C5: every error this pipeline can raise arises during
classification — validation, structural, the conflict abort, or a
cancellation signalled by a notify callback before application — and any
such error leaves the working directory and the index completely untouched:
nothing was applied, no progress or perfdata callback fired, and the index
was not written. -/
theorem classification_error_atomicity (version raw : Nat)
    (entries : List PathEntry) (cb : NotificationEvent → Bool) (st : RepoState)
    (err : CheckoutError)
    (h : (checkout version raw entries cb st).result = Except.error err) :
    (checkout version raw entries cb st).applied = [] ∧
    (checkout version raw entries cb st).progress = [] ∧
    (checkout version raw entries cb st).perfdataCalls = 0 ∧
    (checkout version raw entries cb st).finalWorkdir = st.workdir ∧
    (checkout version raw entries cb st).finalIndex = st.index ∧
    (checkout version raw entries cb st).indexWritten = false := by
  simp only [checkout, checkoutWith] at h ⊢
  split_ifs at h ⊢ <;> simp_all

/-- Witness for claim C5: a callback cancelling on the first notification
aborts a SAFE checkout of the diverged sample entry with a cancelled error
and an untouched state. -/
theorem classification_error_atomicity_witness :
    (checkout 1 1 [divergedEntry] cbAlways stateC).result =
      Except.error CheckoutError.cancelled ∧
    (checkout 1 1 [divergedEntry] cbAlways stateC).applied = [] ∧
    (checkout 1 1 [divergedEntry] cbAlways stateC).progress = [] ∧
    (checkout 1 1 [divergedEntry] cbAlways stateC).perfdataCalls = 0 ∧
    (checkout 1 1 [divergedEntry] cbAlways stateC).finalWorkdir = stateC.workdir ∧
    (checkout 1 1 [divergedEntry] cbAlways stateC).finalIndex = stateC.index ∧
    (checkout 1 1 [divergedEntry] cbAlways stateC).indexWritten = false :=
  ⟨rfl,
   classification_error_atomicity 1 1 [divergedEntry] cbAlways stateC
     CheckoutError.cancelled rfl⟩

/-- Every member of an update-only plan is an update action. -/
theorem mem_planOf_updateOnly (s : CheckoutStrategy) (entries : List PathEntry)
    (hu : s.updateOnly = true) :
    ∀ pa ∈ planOf s entries, isUpdateAction pa.2 = true := by
  intro pa hpa
  simp only [planOf, hu, if_pos] at hpa
  exact (List.mem_filter.mp hpa).2

/-- Classification ignores the update_only modifier. -/
theorem classify_updateOnly_irrel (s : CheckoutStrategy) (e : PathEntry) :
    classifyEntry { s with updateOnly := false } e = classifyEntry s e := rfl

/-- Notifications ignore the update_only modifier. -/
theorem notificationsOf_updateOnly_irrel (s : CheckoutStrategy)
    (entries : List PathEntry) :
    notificationsOf { s with updateOnly := false } entries =
      notificationsOf s entries := rfl

/-- The conflict set ignores the update_only modifier. -/
theorem conflictPaths_updateOnly_irrel (s : CheckoutStrategy)
    (entries : List PathEntry) :
    conflictPaths { s with updateOnly := false } entries =
      conflictPaths s entries := rfl

/-- The result of the resolved-strategy pipeline does not depend on the
update_only modifier: stripping creates and deletes never raises an error. -/
theorem checkoutWith_result_updateOnly (s : CheckoutStrategy)
    (entries : List PathEntry) (cb : NotificationEvent → Bool) (st : RepoState) :
    (checkoutWith { s with updateOnly := false } entries cb st).result =
      (checkoutWith s entries cb st).result := by
  simp only [checkoutWith, notificationsOf_updateOnly_irrel,
    conflictPaths_updateOnly_irrel]
  split_ifs <;> rfl

/-- Claim C9: with update_only set, every applied action is an update — every
PathEntry whose planned action is a create or delete produces no filesystem
action — and the checkout result is the same as with update_only cleared, so
the stripping raises no error. -/
theorem update_only_keeps_only_updates (version raw raw2 : Nat)
    (entries : List PathEntry) (cb : NotificationEvent → Bool) (st : RepoState)
    (hu : (resolveStrategy raw).updateOnly = true)
    (hr2 : resolveStrategy raw2 = { resolveStrategy raw with updateOnly := false }) :
    (∀ pa ∈ (checkout version raw entries cb st).applied,
      isUpdateAction pa.2 = true) ∧
    (∀ e ∈ entries, isUpdateAction (classifyEntry (resolveStrategy raw) e) = false →
      (e.path, classifyEntry (resolveStrategy raw) e) ∉
        (checkout version raw entries cb st).applied) ∧
    (checkout version raw entries cb st).result =
      (checkout version raw2 entries cb st).result := by
  have happ : ∀ pa ∈ (checkout version raw entries cb st).applied,
      isUpdateAction pa.2 = true := by
    simp only [checkout, checkoutWith]
    split_ifs <;> try simp
    all_goals exact fun a b hab => mem_planOf_updateOnly _ _ hu (a, b) hab
  refine ⟨happ, ?_, ?_⟩
  · intro e he hne hmem
    exact absurd (happ _ hmem) (by simp [hne])
  · simp only [checkout]
    split_ifs <;> try rfl
    rw [hr2]
    exact (checkoutWith_result_updateOnly (resolveStrategy raw) entries cb st).symm

/-- Witness for claim C9 at raw 130 (FORCE plus UPDATE_ONLY) versus raw 2
(FORCE): the planned create of the new sample entry is stripped silently and
only the update survives. -/
theorem update_only_keeps_only_updates_witness :
    (resolveStrategy 130).updateOnly = true ∧
    ((∀ pa ∈ (checkout 1 130 [newEntry, modEntry] cbNever stateMod).applied,
        isUpdateAction pa.2 = true) ∧
     (∀ e ∈ [newEntry, modEntry],
        isUpdateAction (classifyEntry (resolveStrategy 130) e) = false →
        (e.path, classifyEntry (resolveStrategy 130) e) ∉
          (checkout 1 130 [newEntry, modEntry] cbNever stateMod).applied) ∧
     (checkout 1 130 [newEntry, modEntry] cbNever stateMod).result =
       (checkout 1 2 [newEntry, modEntry] cbNever stateMod).result) :=
  ⟨by decide,
   update_only_keeps_only_updates 1 130 2 [newEntry, modEntry] cbNever stateMod
     (by decide) (by decide)⟩

end Checkout
